import Mathlib

/-!
Verification of the view/element type-erasure and lifecycle-dispatch layer
of `crates/gpui2/src/view.rs`.

The Rust core is embedded shallowly:

* Machine state that the Rust code reaches only through the surrounding
  `WindowContext`/`ViewContext` (the entity arena, the exclusive-borrow
  leases taken by `Handle::update`, the `with_element_id` stack, the
  layout-id allocator) is gathered into an explicit `Ctx` record that every
  operation threads through.
* A ghost event log in `Ctx` records, purely for observation, each
  invocation of a view's render function and each delegation into the child
  element tree, together with the element-id stack in force at that moment.
  The log never influences control flow.
* Rust panics (`Option::unwrap` on a failed downcast, and the fail-fast
  demanded of re-entrant `Handle::update`) are modelled as the fatal
  `Except.error` outcomes of type `Fault`; there is no recovery path.
* The type parameter `V` of `View<V>` is reflected as a runtime tag
  `vtype : TypeId` carried by the view, and `AnyBox` (the opaque element
  state) carries the tag of the `AnyElement<V>` it boxes; `downcast_mut`
  succeeds exactly when the tags agree.  All entity states are modelled
  by `Int` (the tag, not the payload shape, is what the downcast checks).
* The lifecycle method `initialize` is rendered as `init` in Lean names.
-/

/-- Stable identity of one piece of externally owned entity state. -/
abbrev EntityId := Nat

/-- Runtime reflection of a Rust type parameter `V`; two views have the same
`TypeId` exactly when their Rust state types coincide. -/
abbrev TypeId := Nat

/-- Opaque token handed back by the external layout solver. -/
abbrev LayoutId := Nat

/-- Tree-lookup identity of a node; `ElementId::View(entity_id)` in the source. -/
inductive ElementId where
  | View (id : EntityId)
deriving DecidableEq, Repr

/-- Fatal faults of this layer: a failed `downcast_mut::<AnyElement<V>>().unwrap()`
and the fail-fast on a re-entrant `Handle::update`.  Both model Rust panics:
there is no recovery and no recoverable error value. -/
inductive Fault where
  | downcastFailed
  | reentrantUpdate
deriving DecidableEq, Repr

/-- Ghost log entries.  `render` marks one invocation of a view's render
function; the `child*` entries mark the delegations into the child element
tree.  Each entry snapshots the element-id stack in force when it was
emitted. -/
inductive Event where
  | render (eid : EntityId) (scope : List ElementId)
  | childInit (content : Int) (scope : List ElementId)
  | childLayout (content : Int) (lid : LayoutId) (scope : List ElementId)
  | childPaint (content : Int) (scope : List ElementId)
deriving DecidableEq, Repr

/-- The element-id stack recorded in a ghost event. -/
def Event.scope : Event → List ElementId
  | .render _ s => s
  | .childInit _ s => s
  | .childLayout _ _ s => s
  | .childPaint _ s => s

/-- Whether an event marks a render-function invocation. -/
def Event.isRender : Event → Bool
  | .render _ _ => true
  | _ => false

/-- Number of render-function invocations recorded in a log. -/
def renderCount (l : List Event) : Nat :=
  (l.filter Event.isRender).length

/-- Explicit state threaded through every lifecycle operation, standing for
the `WindowContext`/`ViewContext` plus the external entity store:
`entities` is the arena of entity states keyed by entity id, `leased` the
set of entities currently under an exclusive `Handle::update` borrow,
`elementIdStack` the `with_element_id` context binding, `nextLayoutId` the
layout-id allocator of the external solver, and `log` the ghost event log. -/
structure Ctx where
  entities : List (EntityId × Int)
  leased : List EntityId
  elementIdStack : List ElementId
  nextLayoutId : Nat
  log : List Event
deriving DecidableEq, Repr

/-- Current state of the entity named `id` (entities reachable through a live
handle are always present; absent keys default to 0). -/
def Ctx.getEntity (cx : Ctx) (id : EntityId) : Int :=
  ((cx.entities.lookup id).getD 0)

/-- Write back the state of entity `id`. -/
def Ctx.setEntity (cx : Ctx) (id : EntityId) (s : Int) : Ctx :=
  { cx with entities := (id, s) :: cx.entities.filter (fun p => p.1 ≠ id) }

/-- Modelled from the spec: the context scoping operation
`with_element_id(id, f) → R` consumed from the surrounding frame driver
(§6): it binds the current node's identity (the element id derived from the
entity id) for the duration of `f` and restores the previous binding
afterwards.  The `_global_id` argument the source closures receive is
ignored by every use in this core and is omitted. -/
def Ctx.with_element_id {α : Type} (cx : Ctx) (id : EntityId)
    (f : Ctx → Except Fault (α × Ctx)) : Except Fault (α × Ctx) :=
  let cx1 := { cx with elementIdStack := ElementId.View id :: cx.elementIdStack }
  match f cx1 with
  | .error e => .error e
  | .ok (a, cx2) => .ok (a, { cx2 with elementIdStack := cx2.elementIdStack.tail })

/-- Identity-bearing reference to externally owned entity state; stands for
both `Handle<V>` and the identity-only `AnyHandle` of the source. -/
structure Handle where
  entity_id : EntityId
deriving DecidableEq, Repr

/-- Modelled from the spec: `Handle::clone` is reference duplication — the
clone names the same externally owned state (§3 "Cloning a Typed View shares
the handle ... it does not duplicate state"). -/
def Handle.clone (h : Handle) : Handle := h

/-- Modelled from the spec: read the current entity state through a handle;
observer used to express mutation visibility (§8). -/
def Handle.read (h : Handle) (cx : Ctx) : Int :=
  cx.getEntity h.entity_id

/-- Modelled from the spec: the scoped exclusive-mutation capability
`update(context, f) → R` of the Entity Handle collaborator (§3, §5, §7):
it grants `f` exclusive mutable access to the entity state for the duration
of the call and writes the mutated state back; a re-entrant update on a
handle whose state is already exclusively borrowed higher in the same call
chain fails fast with an immediate fatal error. -/
def Handle.update {α : Type} (h : Handle) (cx : Ctx)
    (f : Int → Ctx → Except Fault (Int × α × Ctx)) : Except Fault (α × Ctx) :=
  if h.entity_id ∈ cx.leased then
    .error .reentrantUpdate
  else
    let s := cx.getEntity h.entity_id
    let cx1 := { cx with leased := h.entity_id :: cx.leased }
    match f s cx1 with
    | .error e => .error e
    | .ok (s2, a, cx2) =>
        .ok (a, { (cx2.setEntity h.entity_id s2) with leased := cx2.leased.erase h.entity_id })

/-- Modelled from the spec: the child element tree a render function
produces (`AnyElement<V>` of the external element module).  Only its
observable content matters to this layer; the spec's scenario `leaf(state)`
is `AnyElement.mk state` (§8). -/
structure AnyElement where
  content : Int
deriving DecidableEq, Repr

/-- Modelled from the spec: recursive initialization of the child tree
(`any_element.initialize(state, cx)`); records a ghost event and has no
other effect at this layer. -/
def AnyElement.init (e : AnyElement) (_state : Int) (cx : Ctx) : Ctx :=
  { cx with log := cx.log ++ [Event.childInit e.content cx.elementIdStack] }

/-- Modelled from the spec: delegation of layout to the child tree
(`element.layout(state, cx)`); draws a fresh layout id from the external
solver and records a ghost event. -/
def AnyElement.layout (e : AnyElement) (_state : Int) (cx : Ctx) : LayoutId × Ctx :=
  (cx.nextLayoutId,
   { cx with
       nextLayoutId := cx.nextLayoutId + 1,
       log := cx.log ++ [Event.childLayout e.content cx.nextLayoutId cx.elementIdStack] })

/-- Modelled from the spec: delegation of paint to the child tree
(`element.paint(state, cx)`); records a ghost event. -/
def AnyElement.paint (e : AnyElement) (_state : Int) (cx : Ctx) : Ctx :=
  { cx with log := cx.log ++ [Event.childPaint e.content cx.elementIdStack] }

/-- The opaque element state `AnyBox`: a heap-held, dynamically typed value.
`vtype` is the runtime type tag of the boxed `AnyElement<V>`;
`downcast_mut::<AnyElement<V>>` succeeds exactly when the tag matches the
caller's `V`. -/
structure AnyBox where
  vtype : TypeId
  elem : AnyElement
deriving DecidableEq, Repr

/-- A user render function `Fn(&mut V, &mut ViewContext<V>) -> AnyElement<V>`:
it receives the entity state and the context, may mutate both, and returns
the child element tree; it may also hit a fatal fault (e.g. by performing a
re-entrant update). -/
structure RenderFn where
  run : Int → Ctx → Except Fault (Int × AnyElement × Ctx)

/-- Clone of the `Arc`-held render function: shares the function. -/
def RenderFn.clone (r : RenderFn) : RenderFn := r

/-- A render function with no state mutation and no context effects,
returning `leaf (f state)`; the spec's scenario render (§8). -/
def pureRender (f : Int → Int) : RenderFn :=
  ⟨fun s cx => .ok (s, AnyElement.mk (f s), cx)⟩

/-- `View<V>`: a handle to externally owned state of type `V` plus a shared
render function.  `vtype` reflects the type parameter `V` as a runtime tag. -/
structure View where
  state : Handle
  render : RenderFn
  vtype : TypeId

/-- `impl Clone for View<V>`: clones the handle and the `Arc` of the render
function. -/
def View.clone (v : View) : View :=
  { state := v.state.clone, render := v.render.clone, vtype := v.vtype }

/-- The source call `(self.render)(state, cx)`, instrumented with a ghost
`Event.render` entry marking the invocation; the user function itself then
runs on the updated context. -/
def View.callRender (v : View) (state : Int) (cx : Ctx) :
    Except Fault (Int × AnyElement × Ctx) :=
  v.render.run state
    { cx with log := cx.log ++ [Event.render v.state.entity_id cx.elementIdStack] }

/-- `Element::id for View<V>`: `Some(ElementId::View(self.state.entity_id))`. -/
def View.element_id (v : View) : Option ElementId :=
  some (ElementId.View v.state.entity_id)

/-- `Element::initialize for View<V>` (parent state type is the unit type;
the previous element state argument is bound to `_`): under the handle's
scoped update, invoke the render function once, recursively initialize the
resulting child tree, and return that tree as this node's element state. -/
def View.element_init (v : View) (_parent : Unit) (_prev : Option AnyElement)
    (cx : Ctx) : Except Fault (AnyElement × Ctx) :=
  v.state.update cx (fun state cx =>
    match v.callRender state cx with
    | .error e => .error e
    | .ok (state, any_element, cx) =>
        .ok (state, any_element, any_element.init state cx))

/-- `Element::layout for View<V>`: under the handle's scoped update,
delegate layout to the previously produced child tree. -/
def View.element_layout (v : View) (_parent : Unit) (element : AnyElement)
    (cx : Ctx) : Except Fault (LayoutId × Ctx) :=
  v.state.update cx (fun state cx =>
    let r := element.layout state cx
    .ok (state, r.1, r.2))

/-- `Bounds<Pixels>` of the source: the rectangle a paint call receives. -/
structure Bounds where
  origin_x : Int
  origin_y : Int
  size_w : Int
  size_h : Int
deriving DecidableEq, Repr

/-- `Element::paint for View<V>` (the bounds argument is bound to `_`):
under the handle's scoped update, delegate paint to the child tree. -/
def View.element_paint (v : View) (_bounds : Bounds) (_parent : Unit)
    (element : AnyElement) (cx : Ctx) : Except Fault (Unit × Ctx) :=
  v.state.update cx (fun state cx =>
    .ok (state, (), element.paint state cx))

/-- `ViewObject::entity_handle for View<V>`: the identity-only handle. -/
def View.object_entity_handle (v : View) : Handle :=
  v.state

/-- `ViewObject::initialize for View<V>`: under `with_element_id` keyed by
the view's entity id, run the scoped update, invoke render once, initialize
the child tree, and box it as the opaque element state tagged with `V`. -/
def View.object_init (v : View) (cx : Ctx) : Except Fault (AnyBox × Ctx) :=
  cx.with_element_id v.state.entity_id (fun cx =>
    v.state.update cx (fun state cx =>
      match v.callRender state cx with
      | .error e => .error e
      | .ok (state, any_element, cx) =>
          .ok (state, AnyBox.mk v.vtype any_element, any_element.init state cx)))

/-- `ViewObject::layout for View<V>`: under `with_element_id` and the scoped
update, downcast the opaque state back to `AnyElement<V>` — a mismatch is a
fatal fault (`unwrap` panic) — and delegate layout to it. -/
def View.object_layout (v : View) (element : AnyBox) (cx : Ctx) :
    Except Fault (LayoutId × Ctx) :=
  cx.with_element_id v.state.entity_id (fun cx =>
    v.state.update cx (fun state cx =>
      if element.vtype = v.vtype then
        let r := element.elem.layout state cx
        .ok (state, r.1, r.2)
      else
        .error .downcastFailed))

/-- `ViewObject::paint for View<V>` (the bounds argument is bound to `_`):
under `with_element_id` and the scoped update, downcast the opaque state —
a mismatch is a fatal fault — and delegate paint to it. -/
def View.object_paint (v : View) (_bounds : Bounds) (element : AnyBox)
    (cx : Ctx) : Except Fault (Unit × Ctx) :=
  cx.with_element_id v.state.entity_id (fun cx =>
    v.state.update cx (fun state cx =>
      if element.vtype = v.vtype then
        .ok (state, (), element.elem.paint state cx)
      else
        .error .downcastFailed))

/-- `EraseViewState<V, ParentV>`: wraps a `View<V>` so it satisfies the
element contract under the parent's state type; the
`parent_view_state_type: PhantomData<ParentV>` field has no runtime
representation and is carried only by the type parameters of the
operations below. -/
structure EraseViewState where
  view : View

/-- `Element::id for EraseViewState`: `Element::id(&self.view)`. -/
def EraseViewState.element_id (e : EraseViewState) : Option ElementId :=
  e.view.element_id

/-- `Element::initialize for EraseViewState` (parent state and previous
element state arguments are bound to `_`): `ViewObject::initialize` on the
wrapped view.  The `&mut ParentV` argument is modelled in/out to record
that it is returned unchanged. -/
def EraseViewState.element_init {ParentV : Type} (e : EraseViewState)
    (parent : ParentV) (_prev : Option AnyBox) (cx : Ctx) :
    Except Fault (AnyBox × ParentV × Ctx) :=
  match e.view.object_init cx with
  | .error f => .error f
  | .ok (box, cx) => .ok (box, parent, cx)

/-- `Element::layout for EraseViewState` (parent state argument bound to
`_`): `ViewObject::layout` on the wrapped view. -/
def EraseViewState.element_layout {ParentV : Type} (e : EraseViewState)
    (parent : ParentV) (element : AnyBox) (cx : Ctx) :
    Except Fault (LayoutId × ParentV × Ctx) :=
  match e.view.object_layout element cx with
  | .error f => .error f
  | .ok (lid, cx) => .ok (lid, parent, cx)

/-- `Element::paint for EraseViewState` (parent state argument bound to
`_`): `ViewObject::paint` on the wrapped view, forwarding the bounds. -/
def EraseViewState.element_paint {ParentV : Type} (e : EraseViewState)
    (bounds : Bounds) (parent : ParentV) (element : AnyBox) (cx : Ctx) :
    Except Fault (Unit × ParentV × Ctx) :=
  match e.view.object_paint bounds element cx with
  | .error f => .error f
  | .ok (u, cx) => .ok (u, parent, cx)

/-- `AnyView`: the `Arc<Mutex<dyn ViewObject>>` cell.  The per-call mutex
lock is a safety net outside this single-render-pass model, so the cell is
modelled as direct containment of the erased view; `Arc` sharing is value
sharing. -/
structure AnyView where
  view : View

/-- `View::into_any`: move the view into the shared cell. -/
def View.into_any (v : View) : AnyView :=
  { view := v }

/-- `impl Clone for AnyView`: `Arc::clone` of the same cell. -/
def AnyView.clone (a : AnyView) : AnyView :=
  { view := a.view }

/-- `AnyView::entity_handle`: lock, clone the identity-only handle, release. -/
def AnyView.entity_handle (a : AnyView) : Handle :=
  (a.view.object_entity_handle).clone

/-- `Element::id for AnyView`:
`Some(ElementId::View(self.view.lock().entity_handle().entity_id))`. -/
def AnyView.element_id (a : AnyView) : Option ElementId :=
  some (ElementId.View (a.view.object_entity_handle).entity_id)

/-- `Element::initialize for AnyView` (parent state and previous element
state arguments bound to `_`): lock and forward to `ViewObject::initialize`. -/
def AnyView.element_init (a : AnyView) (_parent : Unit) (_prev : Option AnyBox)
    (cx : Ctx) : Except Fault (AnyBox × Ctx) :=
  a.view.object_init cx

/-- `Element::layout for AnyView`: lock and forward to `ViewObject::layout`. -/
def AnyView.element_layout (a : AnyView) (_parent : Unit) (element : AnyBox)
    (cx : Ctx) : Except Fault (LayoutId × Ctx) :=
  a.view.object_layout element cx

/-- `Element::paint for AnyView`: lock and forward to `ViewObject::paint`,
passing the bounds through. -/
def AnyView.element_paint (a : AnyView) (bounds : Bounds) (_parent : Unit)
    (element : AnyBox) (cx : Ctx) : Except Fault (Unit × Ctx) :=
  a.view.object_paint bounds element cx

/-- `EraseAnyViewState<ParentViewState>`: wraps an `AnyView` the same way
`EraseViewState` wraps a `View`; the phantom parent-type field has no
runtime representation. -/
structure EraseAnyViewState where
  view : AnyView

/-- `Element::id for EraseAnyViewState`: `Element::id(&self.view)`. -/
def EraseAnyViewState.element_id (e : EraseAnyViewState) : Option ElementId :=
  e.view.element_id

/-- `Element::initialize for EraseAnyViewState` (parent state and previous
element state arguments bound to `_`): `self.view.view.lock().initialize(cx)`. -/
def EraseAnyViewState.element_init {ParentV : Type} (e : EraseAnyViewState)
    (parent : ParentV) (_prev : Option AnyBox) (cx : Ctx) :
    Except Fault (AnyBox × ParentV × Ctx) :=
  match e.view.view.object_init cx with
  | .error f => .error f
  | .ok (box, cx) => .ok (box, parent, cx)

/-- `Element::layout for EraseAnyViewState` (parent state argument bound to
`_`): `self.view.view.lock().layout(element, cx)`. -/
def EraseAnyViewState.element_layout {ParentV : Type} (e : EraseAnyViewState)
    (parent : ParentV) (element : AnyBox) (cx : Ctx) :
    Except Fault (LayoutId × ParentV × Ctx) :=
  match e.view.view.object_layout element cx with
  | .error f => .error f
  | .ok (lid, cx) => .ok (lid, parent, cx)

/-- `Element::paint for EraseAnyViewState` (parent state argument bound to
`_`): `self.view.view.lock().paint(bounds, element, cx)`. -/
def EraseAnyViewState.element_paint {ParentV : Type} (e : EraseAnyViewState)
    (bounds : Bounds) (parent : ParentV) (element : AnyBox) (cx : Ctx) :
    Except Fault (Unit × ParentV × Ctx) :=
  match e.view.view.object_paint bounds element cx with
  | .error f => .error f
  | .ok (u, cx) => .ok (u, parent, cx)

/-- A render function that re-enters `Handle::update` on the given handle —
the forbidden scenario of §5/§8: a view whose render output leads back to a
scoped update of the same handle. -/
def reentrantRender (h : Handle) : RenderFn :=
  ⟨fun s cx =>
    match h.update cx (fun s2 cx2 => .ok (s2, AnyElement.mk s2, cx2)) with
    | .error e => .error e
    | .ok (e, cx2) => .ok (s, e, cx2)⟩

/-- Drop the threaded parent component of an adapter operation's result. -/
def dropParent {α P : Type} (r : Except Fault (α × P × Ctx)) :
    Except Fault (α × Ctx) :=
  Except.map (fun t => (t.1, t.2.2)) r

/-- The threaded parent component of an adapter operation's result. -/
def parentPart {α P : Type} (r : Except Fault (α × P × Ctx)) : Except Fault P :=
  Except.map (fun t => t.2.1) r

/-- Concrete view for witnesses: entity 0, render `leaf(state)`, type tag 0. -/
def testView : View :=
  { state := ⟨0⟩, render := pureRender (fun s => s), vtype := 0 }

/-- Concrete view whose render re-enters the scoped update of its own handle. -/
def reView : View :=
  { state := ⟨0⟩, render := reentrantRender ⟨0⟩, vtype := 0 }

/-- Concrete starting context: entity 0 holds state 42; nothing leased, no
element-id binding in force. -/
def ctx0 : Ctx :=
  { entities := [(0, 42)], leased := [], elementIdStack := [], nextLayoutId := 0, log := [] }

/-- Context after `Element::initialize` on `testView` through the direct
`Element` impl: both ghost events were recorded with an empty element-id
scope. -/
def ctxDirectInit : Ctx :=
  { entities := [(0, 42)], leased := [], elementIdStack := [], nextLayoutId := 0,
    log := [Event.render 0 [], Event.childInit 42 []] }

/-- Context after `ViewObject::initialize` on `testView`: both ghost events
were recorded under the element-id binding `ElementId.View 0`. -/
def ctxObjInit : Ctx :=
  { entities := [(0, 42)], leased := [], elementIdStack := [], nextLayoutId := 0,
    log := [Event.render 0 [ElementId.View 0], Event.childInit 42 [ElementId.View 0]] }

/-- Opaque element state produced by `ViewObject::initialize` on `testView`. -/
def boxInit : AnyBox :=
  AnyBox.mk 0 (AnyElement.mk 42)

/-- An opaque element state whose type tag does not match `testView`. -/
def mismBox : AnyBox :=
  AnyBox.mk 1 (AnyElement.mk 0)

/-- A concrete bounds rectangle. -/
def bounds0 : Bounds :=
  ⟨0, 0, 0, 0⟩

/-- Context after mutating entity 0 to 43 through a clone's handle. -/
def ctxAfterMut : Ctx :=
  { entities := [(0, 43)], leased := [], elementIdStack := [], nextLayoutId := 0, log := [] }

instance {ε α : Type} [DecidableEq ε] [DecidableEq α] : DecidableEq (Except ε α) := fun a b =>
  match a, b with
  | .error x, .error y =>
      if h : x = y then .isTrue (by rw [h]) else .isFalse (fun hc => by cases hc; exact h rfl)
  | .ok x, .ok y =>
      if h : x = y then .isTrue (by rw [h]) else .isFalse (fun hc => by cases hc; exact h rfl)
  | .error _, .ok _ => .isFalse (fun hc => by cases hc)
  | .ok _, .error _ => .isFalse (fun hc => by cases hc)

/-! ## Helper lemmas -/

theorem renderCount_append (l1 l2 : List Event) :
    renderCount (l1 ++ l2) = renderCount l1 + renderCount l2 := by
  simp [renderCount, List.filter_append]

theorem getEntity_setEntity (cx : Ctx) (i : EntityId) (s : Int) :
    Ctx.getEntity (cx.setEntity i s) i = s := by
  simp [Ctx.getEntity, Ctx.setEntity, List.lookup]

theorem eraseView_init_eq {P : Type} (e : EraseViewState) (p : P)
    (prev : Option AnyBox) (cx : Ctx) :
    e.element_init p prev cx =
      Except.map (fun r => (r.1, p, r.2)) (e.view.object_init cx) := by
  cases h : e.view.object_init cx <;>
    simp [EraseViewState.element_init, h, Except.map]

theorem eraseView_layout_eq {P : Type} (e : EraseViewState) (p : P)
    (box : AnyBox) (cx : Ctx) :
    e.element_layout p box cx =
      Except.map (fun r => (r.1, p, r.2)) (e.view.object_layout box cx) := by
  cases h : e.view.object_layout box cx <;>
    simp [EraseViewState.element_layout, h, Except.map]

theorem eraseView_paint_eq {P : Type} (e : EraseViewState) (b : Bounds) (p : P)
    (box : AnyBox) (cx : Ctx) :
    e.element_paint b p box cx =
      Except.map (fun r => (r.1, p, r.2)) (e.view.object_paint b box cx) := by
  cases h : e.view.object_paint b box cx <;>
    simp [EraseViewState.element_paint, h, Except.map]

theorem eraseAny_init_eq {P : Type} (e : EraseAnyViewState) (p : P)
    (prev : Option AnyBox) (cx : Ctx) :
    e.element_init p prev cx =
      Except.map (fun r => (r.1, p, r.2)) (e.view.view.object_init cx) := by
  cases h : e.view.view.object_init cx <;>
    simp [EraseAnyViewState.element_init, h, Except.map]

theorem eraseAny_layout_eq {P : Type} (e : EraseAnyViewState) (p : P)
    (box : AnyBox) (cx : Ctx) :
    e.element_layout p box cx =
      Except.map (fun r => (r.1, p, r.2)) (e.view.view.object_layout box cx) := by
  cases h : e.view.view.object_layout box cx <;>
    simp [EraseAnyViewState.element_layout, h, Except.map]

theorem eraseAny_paint_eq {P : Type} (e : EraseAnyViewState) (b : Bounds) (p : P)
    (box : AnyBox) (cx : Ctx) :
    e.element_paint b p box cx =
      Except.map (fun r => (r.1, p, r.2)) (e.view.view.object_paint b box cx) := by
  cases h : e.view.view.object_paint b box cx <;>
    simp [EraseAnyViewState.element_paint, h, Except.map]

theorem dropParent_map {α P : Type} (g : Except Fault (α × Ctx)) (p : P) :
    dropParent (Except.map (fun r => (r.1, p, r.2)) g) = g := by
  cases g <;> rfl

theorem parentPart_map {α P : Type} (g : Except Fault (α × Ctx)) (p : P) :
    parentPart (Except.map (fun r => (r.1, p, r.2)) g) =
      Except.map (fun _ => p) (Except.map (fun r => (r.1, p, r.2)) g) := by
  cases g <;> rfl

/-! ## Claim theorems -/

/-- C3: for every node, `id()` returns the same value — `Some(ElementId::View(entity_id))`
derived from the underlying handle's entity id — whether queried on the
Typed View directly, through its typed erasure adapter (`EraseViewState`),
on the Shared Erased View (`AnyView`) wrapping it, or through the erased
adapter (`EraseAnyViewState`); no form of erasure alters identity. -/
theorem spec_c3 (v : View) :
    v.element_id = some (ElementId.View v.state.entity_id)
    ∧ EraseViewState.element_id ⟨v⟩ = v.element_id
    ∧ AnyView.element_id v.into_any = v.element_id
    ∧ EraseAnyViewState.element_id ⟨v.into_any⟩ = v.element_id :=
  ⟨rfl, rfl, rfl, rfl⟩

/-- C9: for every `View<V>` and every erasure adapter, the result of
`initialize` is independent of the `previous_state` argument: for any two
values of the optional previous element state (including `None`),
`initialize` produces the same element state and the same effects. -/
theorem spec_c9 (v : View) (prev1 prev2 : Option AnyElement) {P : Type} (p : P)
    (e : EraseViewState) (ea : EraseAnyViewState) (a : AnyView)
    (bprev1 bprev2 : Option AnyBox) (cx : Ctx) :
    v.element_init () prev1 cx = v.element_init () prev2 cx
    ∧ e.element_init p bprev1 cx = e.element_init p bprev2 cx
    ∧ a.element_init () bprev1 cx = a.element_init () bprev2 cx
    ∧ ea.element_init p bprev1 cx = ea.element_init p bprev2 cx :=
  ⟨rfl, rfl, rfl, rfl⟩

/-- C10: for every `View<V>`, the paint operation is independent of its
bounds argument: for any two bounds values and otherwise identical inputs,
paint produces identical results and effects, because the bounds parameter
is discarded before delegating to the child element tree. -/
theorem spec_c10 (v : View) (b1 b2 : Bounds) (box : AnyBox) (E : AnyElement)
    (cx : Ctx) :
    v.object_paint b1 box cx = v.object_paint b2 box cx
    ∧ v.element_paint b1 () E cx = v.element_paint b2 () E cx :=
  ⟨rfl, rfl⟩

/-- C7: for every lifecycle call on an erasure adapter, the parent state
argument is ignored and left unchanged — the result and all state effects
are independent of the parent's state — and a `View<V>`'s own parent-facing
state type is the unit type, so the wrapped view never reads or writes its
surrounding parent's state. -/
theorem spec_c7 {P : Type} (p1 p2 : P) (e : EraseViewState)
    (ea : EraseAnyViewState) (v : View) (prev : Option AnyBox)
    (vprev : Option AnyElement) (b : Bounds) (box : AnyBox) (E : AnyElement)
    (cx : Ctx) (u : Unit) :
    (dropParent (e.element_init p1 prev cx) = dropParent (e.element_init p2 prev cx)
      ∧ parentPart (e.element_init p1 prev cx) =
          Except.map (fun _ => p1) (e.element_init p1 prev cx)
      ∧ dropParent (e.element_layout p1 box cx) = dropParent (e.element_layout p2 box cx)
      ∧ parentPart (e.element_layout p1 box cx) =
          Except.map (fun _ => p1) (e.element_layout p1 box cx)
      ∧ dropParent (e.element_paint b p1 box cx) = dropParent (e.element_paint b p2 box cx)
      ∧ parentPart (e.element_paint b p1 box cx) =
          Except.map (fun _ => p1) (e.element_paint b p1 box cx))
    ∧ (dropParent (ea.element_init p1 prev cx) = dropParent (ea.element_init p2 prev cx)
      ∧ parentPart (ea.element_init p1 prev cx) =
          Except.map (fun _ => p1) (ea.element_init p1 prev cx)
      ∧ dropParent (ea.element_layout p1 box cx) = dropParent (ea.element_layout p2 box cx)
      ∧ parentPart (ea.element_layout p1 box cx) =
          Except.map (fun _ => p1) (ea.element_layout p1 box cx)
      ∧ dropParent (ea.element_paint b p1 box cx) = dropParent (ea.element_paint b p2 box cx)
      ∧ parentPart (ea.element_paint b p1 box cx) =
          Except.map (fun _ => p1) (ea.element_paint b p1 box cx))
    ∧ (v.element_init u vprev cx = v.element_init () vprev cx
      ∧ v.element_layout u E cx = v.element_layout () E cx
      ∧ v.element_paint b u E cx = v.element_paint b () E cx) := by
  refine ⟨⟨?_, ?_, ?_, ?_, ?_, ?_⟩, ⟨?_, ?_, ?_, ?_, ?_, ?_⟩, rfl, rfl, rfl⟩
  · rw [eraseView_init_eq, eraseView_init_eq, dropParent_map, dropParent_map]
  · rw [eraseView_init_eq, parentPart_map]
  · rw [eraseView_layout_eq, eraseView_layout_eq, dropParent_map, dropParent_map]
  · rw [eraseView_layout_eq, parentPart_map]
  · rw [eraseView_paint_eq, eraseView_paint_eq, dropParent_map, dropParent_map]
  · rw [eraseView_paint_eq, parentPart_map]
  · rw [eraseAny_init_eq, eraseAny_init_eq, dropParent_map, dropParent_map]
  · rw [eraseAny_init_eq, parentPart_map]
  · rw [eraseAny_layout_eq, eraseAny_layout_eq, dropParent_map, dropParent_map]
  · rw [eraseAny_layout_eq, parentPart_map]
  · rw [eraseAny_paint_eq, eraseAny_paint_eq, dropParent_map, dropParent_map]
  · rw [eraseAny_paint_eq, parentPart_map]

/-- C4: for every call to layout or paint whose opaque element state's
dynamic type is not the expected child-tree type `AnyElement<V>`, the
runtime type check fails and the operation aborts fatally (the modelled
panic `Fault.downcastFailed`), with no recovery path and no recoverable
error value returned. -/
theorem spec_c4 (v : View) (box : AnyBox) (b : Bounds) (cx : Ctx)
    (h1 : box.vtype ≠ v.vtype) (h2 : v.state.entity_id ∉ cx.leased) :
    v.object_layout box cx = Except.error Fault.downcastFailed
    ∧ v.object_paint b box cx = Except.error Fault.downcastFailed := by
  constructor
  · simp [View.object_layout, Ctx.with_element_id, Handle.update, h1, h2]
  · simp [View.object_paint, Ctx.with_element_id, Handle.update, h1, h2]

/-- Witness for C4 at a concrete mismatched opaque state. -/
theorem spec_c4_witness :
    View.object_layout testView mismBox ctx0 = Except.error Fault.downcastFailed
    ∧ View.object_paint testView bounds0 mismBox ctx0 = Except.error Fault.downcastFailed :=
  spec_c4 testView mismBox bounds0 ctx0 (by decide) (by decide)

/-- C5: cloning a Typed View or a Shared Erased View preserves `id()`
equality and reference to the same underlying state: a clone shares the
same handle (for `AnyView`, the same cell), so a mutation of the entity
state performed through one clone's handle is visible through every other
clone's handle, and cloning duplicates neither the erased object nor its
retained element state (the clone is the same view value). -/
theorem spec_c5 (v : View) (a : AnyView) (x : Int) (cx : Ctx)
    (hl : v.state.entity_id ∉ cx.leased) :
    v.clone = v
    ∧ a.clone = a
    ∧ (v.clone).element_id = v.element_id
    ∧ (a.clone).element_id = a.element_id
    ∧ (v.clone).state = v.state
    ∧ (a.clone).view = a.view
    ∧ (∀ cx2, Handle.update (v.clone).state cx (fun _ c => Except.ok (x, (), c)) =
          Except.ok ((), cx2) → Handle.read v.state cx2 = x) := by
  refine ⟨rfl, rfl, rfl, rfl, rfl, rfl, ?_⟩
  intro cx2 hup
  simp only [View.clone, Handle.clone, Handle.update, hl, if_false] at hup
  obtain ⟨-, rfl⟩ := hup
  simp [Handle.read, Ctx.getEntity, Ctx.setEntity, List.lookup]

/-- Witness for C5: mutating entity 0 to 43 through a clone of `testView`
is visible through the original handle. -/
theorem spec_c5_witness : Handle.read testView.state ctxAfterMut = 43 :=
  (spec_c5 testView testView.into_any 43 ctx0 (by decide)).2.2.2.2.2.2 ctxAfterMut rfl

/-- C8: attempting a scoped-update call on a handle from within a render
function already executing under that handle's own scoped-update (a view
whose render re-enters the outer update) fails fast with an immediate
fatal error (`Fault.reentrantUpdate`), never silently succeeding; in
general, `Handle::update` on an already-leased handle fails immediately. -/
theorem spec_c8 (h : Handle) (v : View) (cx : Ctx)
    (hv : v.state = h) (hr : v.render = reentrantRender h)
    (hl : h.entity_id ∉ cx.leased) :
    v.object_init cx = Except.error Fault.reentrantUpdate
    ∧ (∀ (α : Type) (f2 : Int → Ctx → Except Fault (Int × α × Ctx)) (cx2 : Ctx),
        h.entity_id ∈ cx2.leased → h.update cx2 f2 = Except.error Fault.reentrantUpdate) := by
  constructor
  · simp [View.object_init, Ctx.with_element_id, Handle.update, View.callRender,
      hv, hr, hl, reentrantRender]
  · intro α f2 cx2 hmem
    simp [Handle.update, hmem]

/-- Witness for C8: initializing the concrete re-entrant view fails fast. -/
theorem spec_c8_witness : View.object_init reView ctx0 = Except.error Fault.reentrantUpdate :=
  (spec_c8 ⟨0⟩ reView ctx0 rfl rfl (by decide)).1

/-- Successful `ViewObject::initialize` always tags the opaque element state
with the view's own type; helper for C1. -/
theorem object_init_vtype (v : View) (cx cx1 : Ctx) (box : AnyBox)
    (h : v.object_init cx = Except.ok (box, cx1)) : box.vtype = v.vtype := by
  simp only [View.object_init, Ctx.with_element_id, Handle.update, View.callRender] at h
  split at h
  · simp at h
  · rename_i a cx2 heq
    split at heq
    · simp at heq
    · split at heq
      · simp at heq
      · rename_i st e c2 hrun
        simp only [Except.ok.injEq, Prod.mk.injEq] at heq h
        obtain ⟨heq1, -⟩ := heq
        obtain ⟨h1, -⟩ := h
        split at hrun
        · simp at hrun
        · simp only [Except.ok.injEq, Prod.mk.injEq] at hrun
          obtain ⟨-, hrun2, -⟩ := hrun
          rw [← h1, ← heq1, ← hrun2]

/-- A matching type tag means `ViewObject::layout` can never hit the
downcast fault; helper for C1. -/
theorem object_layout_ne_downcast (v : View) (box : AnyBox)
    (hv : box.vtype = v.vtype) (cx : Ctx) :
    v.object_layout box cx ≠ Except.error Fault.downcastFailed := by
  by_cases hmem : v.state.entity_id ∈ cx.leased
  · simp [View.object_layout, Ctx.with_element_id, Handle.update, hmem]
  · simp [View.object_layout, Ctx.with_element_id, Handle.update, hmem, hv, AnyElement.layout]

/-- A matching type tag means `ViewObject::paint` can never hit the
downcast fault; helper for C1. -/
theorem object_paint_ne_downcast (v : View) (b : Bounds) (box : AnyBox)
    (hv : box.vtype = v.vtype) (cx : Ctx) :
    v.object_paint b box cx ≠ Except.error Fault.downcastFailed := by
  by_cases hmem : v.state.entity_id ∈ cx.leased
  · simp [View.object_paint, Ctx.with_element_id, Handle.update, hmem]
  · simp [View.object_paint, Ctx.with_element_id, Handle.update, hmem, hv, AnyElement.paint]

/-- C1: for every `View<V>`, the opaque element state returned by
`initialize` carries the dynamic type `AnyElement<V>` of this view, so a
subsequent layout and then paint called on that same element state always
pass the runtime downcast and never trigger a state-type-mismatch fault —
the unwrap branch is unreachable under this precondition. -/
theorem spec_c1 (v : View) (cx cx1 : Ctx) (box : AnyBox)
    (h : v.object_init cx = Except.ok (box, cx1)) :
    box.vtype = v.vtype
    ∧ (∀ cx2, v.object_layout box cx2 ≠ Except.error Fault.downcastFailed)
    ∧ (∀ b cx2, v.object_paint b box cx2 ≠ Except.error Fault.downcastFailed) := by
  have hv := object_init_vtype v cx cx1 box h
  exact ⟨hv, fun cx2 => object_layout_ne_downcast v box hv cx2,
    fun b cx2 => object_paint_ne_downcast v b box hv cx2⟩

/-- Witness for C1 at the concrete view and context: layout after
initialize does not hit the downcast fault. -/
theorem spec_c1_witness :
    View.object_layout testView boxInit ctxObjInit ≠ Except.error Fault.downcastFailed :=
  (spec_c1 testView ctx0 ctxObjInit boxInit rfl).2.1 ctxObjInit

/-- C2: for every `View<V>`, the render function is invoked exactly once per
`initialize` call (the ghost render count rises by exactly one) and never by
`layout` or `paint` (their only effect on the log is the delegation into the
already-captured child tree), so the child tree used by a later layout/paint
reflects the entity state as of the last `initialize`: for the spec's
`leaf(state)` render, the captured tree holds the state read at initialize
time, and layout delegates to exactly that captured tree.  The honesty
hypothesis states that the user render function does not itself forge ghost
render events. -/
theorem spec_c2 (v : View) (f : Int → Int) (prev : Option AnyElement)
    (E : AnyElement) (cx cx1 : Ctx)
    (hhonest : ∀ s c s2 e c2, v.render.run s c = Except.ok (s2, e, c2) →
      renderCount c2.log = renderCount c.log)
    (hinit : v.element_init () prev cx = Except.ok (E, cx1)) :
    renderCount cx1.log = renderCount cx.log + 1
    ∧ (∀ E2 cx2 lid cx3, v.element_layout () E2 cx2 = Except.ok (lid, cx3) →
        cx3.log = cx2.log ++ [Event.childLayout E2.content cx2.nextLayoutId cx2.elementIdStack])
    ∧ (∀ b E2 cx2 u cx3, v.element_paint b () E2 cx2 = Except.ok (u, cx3) →
        cx3.log = cx2.log ++ [Event.childPaint E2.content cx2.elementIdStack])
    ∧ (v.render = pureRender f → E.content = f (cx.getEntity v.state.entity_id)) := by
  have hmain : renderCount cx1.log = renderCount cx.log + 1
      ∧ (v.render = pureRender f → E.content = f (cx.getEntity v.state.entity_id)) := by
    simp only [View.element_init, Handle.update, View.callRender, AnyElement.init] at hinit
    split at hinit
    · simp at hinit
    · split at hinit
      · simp at hinit
      · rename_i s2 a cx2 hmatch
        simp only [Except.ok.injEq, Prod.mk.injEq] at hinit
        obtain ⟨hE, hcx1⟩ := hinit
        split at hmatch
        · simp at hmatch
        · rename_i st e c3 hrun
          simp only [Except.ok.injEq, Prod.mk.injEq] at hmatch
          obtain ⟨hst, he, hc2⟩ := hmatch
          constructor
          · have hc3 := hhonest _ _ _ _ _ hrun
            rw [← hcx1]
            simp only [Ctx.setEntity]
            rw [← hc2]
            simp only []
            rw [renderCount_append, hc3]
            simp [renderCount_append, renderCount, Event.isRender]
          · intro hrender
            rw [hrender] at hrun
            simp only [pureRender, Except.ok.injEq, Prod.mk.injEq] at hrun
            obtain ⟨hs, hee, -⟩ := hrun
            rw [← hE, ← he, ← hee]
  refine ⟨hmain.1, ?_, ?_, hmain.2⟩
  · intro E2 cx2 lid cx3 h
    simp only [View.element_layout, Handle.update, AnyElement.layout] at h
    split at h
    · simp at h
    · simp only [Except.ok.injEq, Prod.mk.injEq] at h
      obtain ⟨-, hcx⟩ := h
      rw [← hcx]
      simp [Ctx.setEntity]
  · intro b E2 cx2 u cx3 h
    simp only [View.element_paint, Handle.update, AnyElement.paint] at h
    split at h
    · simp at h
    · simp only [Except.ok.injEq, Prod.mk.injEq] at h
      obtain ⟨-, hcx⟩ := h
      rw [← hcx]
      simp [Ctx.setEntity]

/-- Witness for C2: initializing the concrete view records exactly one
render invocation. -/
theorem spec_c2_witness : renderCount ctxDirectInit.log = renderCount ctx0.log + 1 :=
  (spec_c2 testView (fun s => s) none (AnyElement.mk 42) ctx0 ctxDirectInit
    (by
      intro s c s2 e c2 hh
      simp only [testView, pureRender, Except.ok.injEq, Prod.mk.injEq] at hh
      obtain ⟨-, -, hc⟩ := hh
      rw [← hc])
    rfl).1

/-- C6 counterexample: on the direct `Element` impl of `View<V>`, an
initialize call is not executed under any `with_element_id` binding — at the
concrete view and context, both ghost events of the call were recorded with
an empty element-id scope, and the view's own element id
`ElementId.View 0` is not part of that scope.  This refutes the claim's
"regardless of which path (direct Element impl, ...)" generalization. -/
theorem spec_c6_counterexample :
    View.element_init testView () none ctx0 = Except.ok (AnyElement.mk 42, ctxDirectInit)
    ∧ ctxDirectInit.log.map Event.scope = [[], []]
    ∧ ElementId.View testView.state.entity_id ∉ ([] : List ElementId) :=
  ⟨rfl, rfl, by decide⟩

/-- C6 (amended): every initialize, layout and paint call that reaches a
view through the Dynamic Dispatch Interface — that is, via the typed
erasure adapter, the Shared Erased View's element impl, or the erased
erasure adapter, all of which delegate to the `ViewObject` operations — is
executed under the context's `with_element_id` scoping bound to that view's
own entity id for the duration of the call: every ghost event of such a
call is recorded with `ElementId.View entity_id` pushed on the scope.  The
direct `Element` impl on `View<V>` performs its scoped update without this
binding (see the counterexample). -/
theorem spec_c6 (v : View) (f : Int → Int) {P : Type} (p : P)
    (prev : Option AnyBox) (cx : Ctx)
    (hr : v.render = pureRender f) :
    (∀ box cx1, v.object_init cx = Except.ok (box, cx1) →
      cx1.log = cx.log ++
        [Event.render v.state.entity_id (ElementId.View v.state.entity_id :: cx.elementIdStack),
         Event.childInit (f (cx.getEntity v.state.entity_id))
           (ElementId.View v.state.entity_id :: cx.elementIdStack)])
    ∧ (∀ box lid cx1, v.object_layout box cx = Except.ok (lid, cx1) →
        cx1.log = cx.log ++
          [Event.childLayout box.elem.content cx.nextLayoutId
            (ElementId.View v.state.entity_id :: cx.elementIdStack)])
    ∧ (∀ box b u cx1, v.object_paint b box cx = Except.ok (u, cx1) →
        cx1.log = cx.log ++
          [Event.childPaint box.elem.content
            (ElementId.View v.state.entity_id :: cx.elementIdStack)])
    ∧ AnyView.element_init v.into_any () prev cx = v.object_init cx
    ∧ (∀ box, AnyView.element_layout v.into_any () box cx = v.object_layout box cx)
    ∧ (∀ box b, AnyView.element_paint v.into_any b () box cx = v.object_paint b box cx)
    ∧ EraseViewState.element_init ⟨v⟩ p prev cx =
        Except.map (fun r => (r.1, p, r.2)) (v.object_init cx)
    ∧ (∀ box, EraseViewState.element_layout ⟨v⟩ p box cx =
        Except.map (fun r => (r.1, p, r.2)) (v.object_layout box cx))
    ∧ (∀ box b, EraseViewState.element_paint ⟨v⟩ b p box cx =
        Except.map (fun r => (r.1, p, r.2)) (v.object_paint b box cx))
    ∧ EraseAnyViewState.element_init ⟨v.into_any⟩ p prev cx =
        Except.map (fun r => (r.1, p, r.2)) (v.object_init cx)
    ∧ (∀ box, EraseAnyViewState.element_layout ⟨v.into_any⟩ p box cx =
        Except.map (fun r => (r.1, p, r.2)) (v.object_layout box cx))
    ∧ (∀ box b, EraseAnyViewState.element_paint ⟨v.into_any⟩ b p box cx =
        Except.map (fun r => (r.1, p, r.2)) (v.object_paint b box cx)) := by
  refine ⟨?_, ?_, ?_, rfl, fun box => rfl, fun box b => rfl,
    eraseView_init_eq ⟨v⟩ p prev cx, fun box => eraseView_layout_eq ⟨v⟩ p box cx,
    fun box b => eraseView_paint_eq ⟨v⟩ b p box cx,
    eraseAny_init_eq ⟨v.into_any⟩ p prev cx,
    fun box => eraseAny_layout_eq ⟨v.into_any⟩ p box cx,
    fun box b => eraseAny_paint_eq ⟨v.into_any⟩ b p box cx⟩
  · intro box cx1 h
    simp only [View.object_init, Ctx.with_element_id, Handle.update, View.callRender,
      AnyElement.init, hr, pureRender] at h
    split at h
    · simp at h
    · rename_i a2 cx2 heq
      simp only [Except.ok.injEq, Prod.mk.injEq] at h
      obtain ⟨-, hcx⟩ := h
      split at heq
      · simp at heq
      · simp only [Except.ok.injEq, Prod.mk.injEq] at heq
        obtain ⟨-, hcx2⟩ := heq
        rw [← hcx, ← hcx2]
        simp [Ctx.setEntity, Ctx.getEntity]
  · intro box lid cx1 h
    simp only [View.object_layout, Ctx.with_element_id, Handle.update, AnyElement.layout] at h
    split at h
    · simp at h
    · rename_i a2 cx2 heq
      simp only [Except.ok.injEq, Prod.mk.injEq] at h
      obtain ⟨-, hcx⟩ := h
      split at heq
      · simp at heq
      · split at heq
        · simp at heq
        · rename_i s2b ab cx2b heqi
          simp only [Except.ok.injEq, Prod.mk.injEq] at heq
          obtain ⟨-, hcx2⟩ := heq
          split at heqi
          · simp only [Except.ok.injEq, Prod.mk.injEq] at heqi
            obtain ⟨-, -, hcx3⟩ := heqi
            rw [← hcx, ← hcx2, ← hcx3]
            simp [Ctx.setEntity]
          · simp at heqi
  · intro box b u cx1 h
    simp only [View.object_paint, Ctx.with_element_id, Handle.update, AnyElement.paint] at h
    split at h
    · simp at h
    · rename_i a2 cx2 heq
      simp only [Except.ok.injEq, Prod.mk.injEq] at h
      obtain ⟨-, hcx⟩ := h
      split at heq
      · simp at heq
      · split at heq
        · simp at heq
        · rename_i s2b ab cx2b heqi
          simp only [Except.ok.injEq, Prod.mk.injEq] at heq
          obtain ⟨-, hcx2⟩ := heq
          split at heqi
          · simp only [Except.ok.injEq, Prod.mk.injEq] at heqi
            obtain ⟨-, -, hcx3⟩ := heqi
            rw [← hcx, ← hcx2, ← hcx3]
            simp [Ctx.setEntity]
          · simp at heqi

/-- Witness for the amended C6: the `ViewObject` initialize on the concrete
view records both of its ghost events under the binding `ElementId.View 0`. -/
theorem spec_c6_witness :
    ctxObjInit.log = ctx0.log ++
      [Event.render 0 [ElementId.View 0], Event.childInit 42 [ElementId.View 0]] :=
  (spec_c6 testView (fun s => s) (() : Unit) none ctx0 rfl).1 boxInit ctxObjInit rfl
